import Mathlib

/-!
Shallow embedding of `src/calvaDebug.ts` (the Calva debug adapter for the
DAP front-end protocol) and proofs about its request handlers, its
configuration resolver and its adapter-descriptor factory.

The TypeScript source is translated declaration by declaration:

* `DebugNotification` models the payload stored in the shared debug slot
  (`state.deref().get('debug-response')`); the slot itself is an
  `Option DebugNotification`, `none` meaning that no notification has
  ever been recorded (JavaScript `undefined`).
* Each request handler of `CalvaDebugSession` becomes a function from the
  observable state to the ordered list of outputs it emits (responses,
  events, commands sent through the language-session bridge, user-visible
  messages).  Handlers that can hit a JavaScript `TypeError` (a property
  access on `undefined`) return `Except JsError …`, with `.error`
  standing for the uncaught exception.
* `resolveDebugConfiguration` and the adapter-descriptor factory are
  translated as pure state transformers.
-/

namespace CalvaDebug

/-- DebugNotification: the structured message the language session pushes
when execution suspends.  `calvaDebug.ts` reads the fields `key` and
`file`; a notification may additionally carry a line/column coordinate,
which the adapter never reads. -/
structure DebugNotification where
  key : String
  file : String
  line? : Option Nat := none
  column? : Option Nat := none
deriving Repr, DecidableEq

/-- JsError models an uncaught JavaScript exception, e.g. the `TypeError`
raised by a property access on `undefined`. -/
structure JsError where
  message : String
deriving Repr, DecidableEq

/-- Source descriptor as built by `new Source(basename(filePath),
convertedFilePath, undefined, undefined, 'test-debug-data')` in
`stackTraceRequest` (only the fields the source populates are kept). -/
structure Source where
  name : String
  path : String
  origin : String
deriving Repr, DecidableEq

/-- StackFrame as built by `new StackFrame(0, 'test', source, 18, 0)`:
frame id, display name, source descriptor, line, column. -/
structure StackFrame where
  id : Nat
  name : String
  source : Source
  line : Nat
  column : Nat
deriving Repr, DecidableEq

/-- Thread descriptor as built by `new Thread(id, name)`. -/
structure Thread where
  id : Nat
  name : String
deriving Repr, DecidableEq

/-- Body of a stackTrace response: `{ stackFrames, totalFrames }`. -/
structure StackTraceBody where
  stackFrames : List StackFrame
  totalFrames : Nat
deriving Repr, DecidableEq

/-- Body of a threads response: `{ threads }`. -/
structure ThreadsBody where
  threads : List Thread
deriving Repr, DecidableEq

/-- Protocol events emitted with `this.sendEvent(...)`. -/
inductive Event where
  | terminated
  | stopped (reason : String) (threadId : Nat)
deriving Repr, DecidableEq

/-- One observable output of a request handler, in emission order:
a protocol response (`sendResponse`), a protocol event (`sendEvent`),
a textual debug command sent through the language-session bridge
(`cljSession.sendDebugInput(command, key)`), or a user-visible message
(`window.showInformationMessage`). -/
inductive Output where
  | response (kind : String)
  | initializeResponse (supportsBreakpointLocationsRequest : Bool)
  | stackTraceResponse (body : StackTraceBody)
  | threadsResponse (body : ThreadsBody)
  | event (e : Event)
  | debugInput (command : String) (key : String)
  | showMessage (msg : String)
deriving Repr, DecidableEq

/-- Observable state a `CalvaDebugSession` handler can read or write:

* `cljSession` — whether `util.getSession('clj')` returns a live language
  session (modelled from the spec: the language-session registry is an
  external collaborator; only its presence/absence is observable here);
* `debugResponse` — the shared debug slot.  Modelled from the spec: the
  `state` module is not under `src/`; per the spec, `current()` returns
  the latest stored notification or an explicit absent indicator
  (JavaScript `undefined`, here `none`) if none has ever arrived;
* `debuggerLinesStartAt1`, `debuggerColumnsStartAt1` — the adapter-local
  numbering conventions recorded by `setDebuggerLinesStartAt1` /
  `setDebuggerColumnsStartAt1`. -/
structure State where
  cljSession : Bool
  debugResponse : Option DebugNotification
  debuggerLinesStartAt1 : Bool
  debuggerColumnsStartAt1 : Bool
deriving Repr, DecidableEq

/-- Arguments of the initialize request that the handler reads. -/
structure InitializeRequestArguments where
  linesStartAt1 : Bool
  columnsStartAt1 : Bool
deriving Repr, DecidableEq

/-- Hardcoded thread id: `static THREAD_ID = 1`. -/
def CalvaDebugSession.THREAD_ID : Nat := 1

/-- The portion of a POSIX path after the final separator, as
`basename` from the `path` module computes it for the paths at hand. -/
def basename (p : String) : String :=
  match (p.splitOn "/").getLast? with
  | some s => s
  | none => p

namespace CalvaDebugSession

/-- Handler for the initialize request (`calvaDebug.ts` lines 29–48).
If `util.getSession('clj')` is absent: show a message, send a
`TerminatedEvent`, and return without sending a response.  Otherwise
record the numbering conventions, declare
`supportsBreakpointLocationsRequest: true` and reply. -/
def initializeRequest (st : State) (args : InitializeRequestArguments) :
    State × List Output :=
  if st.cljSession then
    ({ st with
        debuggerLinesStartAt1 := args.linesStartAt1,
        debuggerColumnsStartAt1 := args.columnsStartAt1 },
     [Output.initializeResponse true])
  else
    (st, [Output.showMessage "You must be connected to a Clojure REPL to use debugging.",
          Output.event Event.terminated])

/-- Handler for the attach request (lines 50–56): send the response,
then a `StoppedEvent('breakpoint', THREAD_ID)`. -/
def attachRequest (st : State) : State × List Output :=
  (st, [Output.response "attach",
        Output.event (Event.stopped "breakpoint" THREAD_ID)])

/-- Handler for the disconnect request (lines 58–68).  When a language
session exists the code evaluates `debugResponse.key`; if the slot is
empty (`undefined`) that property access is a `TypeError` and the
handler aborts before `sendResponse`. -/
def disconnectRequest (st : State) : Except JsError (State × List Output) :=
  if st.cljSession then
    match st.debugResponse with
    | none => .error { message := "TypeError: cannot read key of undefined" }
    | some debugResponse =>
        .ok (st, [Output.debugInput ":quit" debugResponse.key,
                  Output.response "disconnect"])
  else
    .ok (st, [Output.response "disconnect"])

/-- Handler for the next request (lines 70–80), same shape as
disconnect with the command `:next`. -/
def nextRequest (st : State) : Except JsError (State × List Output) :=
  if st.cljSession then
    match st.debugResponse with
    | none => .error { message := "TypeError: cannot read key of undefined" }
    | some debugResponse =>
        .ok (st, [Output.debugInput ":next" debugResponse.key,
                  Output.response "next"])
  else
    .ok (st, [Output.response "next"])

/-- Handler for the stackTrace request (lines 82–96).  The code reads
`debugResponse.file` unconditionally; with an empty slot this is a
`TypeError`.  With a notification present it builds exactly one frame
`new StackFrame(0, 'test', source, 18, 0)` whose source path is the file
path run through `convertDebuggerPathToClient` (a path-mapping
collaborator inherited from the debug-adapter base class, passed here as
the function parameter `conv`). -/
def stackTraceRequest (conv : String → String) (st : State) :
    Except JsError (State × List Output) :=
  match st.debugResponse with
  | none => .error { message := "TypeError: cannot read file of undefined" }
  | some debugResponse =>
      let filePath := debugResponse.file
      let convertedFilePath := conv filePath
      let source : Source :=
        { name := basename filePath, path := convertedFilePath,
          origin := "test-debug-data" }
      let stackFrames : List StackFrame :=
        [{ id := 0, name := "test", source := source, line := 18, column := 0 }]
      .ok (st, [Output.stackTraceResponse
        { stackFrames := stackFrames, totalFrames := stackFrames.length }])

/-- Handler for the threads request (lines 98–106): always the single
dummy thread `new Thread(THREAD_ID, 'thread 1')`. -/
def threadsRequest (st : State) : State × List Output :=
  (st, [Output.threadsResponse
    { threads := [{ id := THREAD_ID, name := "thread 1" }] }])

end CalvaDebugSession

/-- Debug configuration record: the three fields the resolver inspects
and sets (`type`, `request`, `name`).  `none` models a missing field;
`some ""` a field present with the empty string (which JavaScript
treats as falsy). -/
structure DebugConfiguration where
  type : Option String
  request : Option String
  name : Option String
deriving Repr, DecidableEq

/-- JavaScript truthiness of an optional string field: a missing field
(`undefined`) and the empty string are falsy; `!config.type` in the
source is `!truthy config.type` here. -/
def truthy : Option String → Bool
  | none => false
  | some s => s ≠ ""

/-- Fixed default configuration `CALVA_DEBUG_CONFIGURATION`
(`calvaDebug.ts` lines 10–14). -/
def CALVA_DEBUG_CONFIGURATION : DebugConfiguration :=
  { type := some "clojure", name := some "Calva Debug", request := some "attach" }

/-- Document of a text editor; the resolver reads its `languageId`. -/
structure TextDocument where
  languageId : String
deriving Repr, DecidableEq

/-- Active text editor (`window.activeTextEditor` is modelled as
`Option TextEditor`). -/
structure TextEditor where
  document : TextDocument
deriving Repr, DecidableEq

/-- Configuration resolver
(`CalvaDebugConfigurationProvider.resolveDebugConfiguration`, lines
117–128): when `type`, `request` and `name` are all falsy and the active
document is a clojure document, replace the record with
`{...config, ...CALVA_DEBUG_CONFIGURATION}` (the spread overwrites all
three fields, which the default defines); otherwise return the input
unchanged. -/
def resolveDebugConfiguration (activeTextEditor : Option TextEditor)
    (config : DebugConfiguration) : DebugConfiguration :=
  if !truthy config.type && !truthy config.request && !truthy config.name then
    match activeTextEditor with
    | some editor =>
        if editor.document.languageId == "clojure" then
          { config with
              type := CALVA_DEBUG_CONFIGURATION.type,
              name := CALVA_DEBUG_CONFIGURATION.name,
              request := CALVA_DEBUG_CONFIGURATION.request }
        else config
    | none => config
  else config

/-- Transport listener created by `Net.createServer(...).listen(0)`:
its OS-assigned port and whether it is still listening. -/
structure NetServer where
  port : Nat
  listening : Bool
deriving Repr, DecidableEq

/-- Modelled from the spec and the Node.js contract the source relies
on: `server.close()` called without a callback does not throw, even on
a server that is no longer listening; it marks the listener closed. -/
def NetServer.close (s : NetServer) : NetServer :=
  { s with listening := false }

/-- State of a `CalvaDebugAdapterDescriptorFactory` instance: its
optional `server` field (`private server?: Net.Server`). -/
structure FactoryState where
  server : Option NetServer
deriving Repr, DecidableEq

/-- Descriptor returned to the front-end:
`new DebugAdapterServer(this.server.address().port)`. -/
structure DebugAdapterServer where
  port : Nat
deriving Repr, DecidableEq

/-- Factory operation `createDebugAdapterDescriptor` (lines 135–148).
`osPort` is the OS-assigned port that `listen(0)` would bind, consumed
only when no listener exists yet; an existing listener is reused and its
port returned again. -/
def createDebugAdapterDescriptor (st : FactoryState) (osPort : Nat) :
    FactoryState × DebugAdapterServer :=
  match st.server with
  | none =>
      let server : NetServer := { port := osPort, listening := true }
      ({ server := some server }, { port := server.port })
  | some server => (st, { port := server.port })

/-- Factory disposal (lines 150–154): `if (this.server)
{ this.server.close(); }`.  The guard keeps the property access off the
absent listener, and `close` itself does not throw, so disposal never
yields an error. -/
def dispose (st : FactoryState) : Except JsError FactoryState :=
  match st.server with
  | none => .ok st
  | some server => .ok { server := some server.close }

/-! Theorems, one per claim. -/

/-- C1: the claim states that a stackTrace request issued with an empty
shared debug slot succeeds with an empty `stackFrames` list and
`totalFrames = 0`.  The code instead reads `debugResponse.file` without
checking for absence, a `TypeError` on `undefined`: at the failing input
(empty slot) the handler faults and no such response is produced. -/
theorem stackTrace_empty_slot_faults :
    CalvaDebugSession.stackTraceRequest id
        { cljSession := true, debugResponse := none,
          debuggerLinesStartAt1 := true, debuggerColumnsStartAt1 := true } =
      .error { message := "TypeError: cannot read file of undefined" } := rfl

/-- C2: the claim states that when a language session exists, `next` and
`disconnect` send their command with whatever key is available
(including none, when no notification was ever recorded) and always send
the success response.  At the failing input (language session present,
empty slot) the code reads `debugResponse.key` on `undefined` and faults
before `sendResponse`: no command and no response is emitted. -/
theorem next_disconnect_empty_slot_faults :
    CalvaDebugSession.nextRequest
        { cljSession := true, debugResponse := none,
          debuggerLinesStartAt1 := true, debuggerColumnsStartAt1 := true } =
      .error { message := "TypeError: cannot read key of undefined" } ∧
    CalvaDebugSession.disconnectRequest
        { cljSession := true, debugResponse := none,
          debuggerLinesStartAt1 := true, debuggerColumnsStartAt1 := true } =
      .error { message := "TypeError: cannot read key of undefined" } :=
  ⟨rfl, rfl⟩

/-- C3: an initialize request processed while no language session exists
emits exactly one terminated event plus the user-visible notice, sends
no initialize response (so declares no capabilities), and leaves the
session state unchanged. -/
theorem initialize_without_session_only_terminates
    (st : State) (args : InitializeRequestArguments)
    (h : st.cljSession = false) :
    CalvaDebugSession.initializeRequest st args =
      (st,
       [Output.showMessage "You must be connected to a Clojure REPL to use debugging.",
        Output.event Event.terminated]) := by
  simp [CalvaDebugSession.initializeRequest, h]

/-- Witness for C3 at a concrete session state with no language session. -/
theorem initialize_without_session_only_terminates_witness :
    ({ cljSession := false, debugResponse := none,
       debuggerLinesStartAt1 := true, debuggerColumnsStartAt1 := false } : State).cljSession
        = false ∧
    CalvaDebugSession.initializeRequest
        { cljSession := false, debugResponse := none,
          debuggerLinesStartAt1 := true, debuggerColumnsStartAt1 := false }
        { linesStartAt1 := true, columnsStartAt1 := true } =
      ({ cljSession := false, debugResponse := none,
         debuggerLinesStartAt1 := true, debuggerColumnsStartAt1 := false },
       [Output.showMessage "You must be connected to a Clojure REPL to use debugging.",
        Output.event Event.terminated]) :=
  ⟨rfl, initialize_without_session_only_terminates _ _ rfl⟩

/-- C4: for every session state, the attach handler emits exactly the
success response followed by the Stopped event with reason "breakpoint"
and thread id 1; in particular the response occupies a strictly earlier
position than the event in the emission order. -/
theorem attach_response_before_stopped (st : State) :
    (CalvaDebugSession.attachRequest st).2 =
      [Output.response "attach",
       Output.event (Event.stopped "breakpoint" CalvaDebugSession.THREAD_ID)] ∧
    ∃ i j, i < j ∧
      (CalvaDebugSession.attachRequest st).2.get? i = some (Output.response "attach") ∧
      (CalvaDebugSession.attachRequest st).2.get? j =
        some (Output.event (Event.stopped "breakpoint" 1)) :=
  ⟨rfl, 0, 1, Nat.zero_lt_one, rfl, rfl⟩

/-- C5: a stackTrace request with a current notification carrying file
path `n.file` responds with exactly one frame, of id 0, whose source
path is `n.file` run through the debugger-to-client path conversion, and
with `totalFrames = 1`. -/
theorem stackTrace_with_notification_single_frame
    (conv : String → String) (st : State) (n : DebugNotification)
    (h : st.debugResponse = some n) :
    ∃ fr : StackFrame,
      CalvaDebugSession.stackTraceRequest conv st =
        .ok (st, [Output.stackTraceResponse { stackFrames := [fr], totalFrames := 1 }]) ∧
      fr.id = 0 ∧ fr.source.path = conv n.file := by
  refine ⟨{ id := 0, name := "test",
            source := { name := basename n.file, path := conv n.file,
                        origin := "test-debug-data" },
            line := 18, column := 0 }, ?_, rfl, rfl⟩
  simp [CalvaDebugSession.stackTraceRequest, h]

/-- Witness for C5 at the notification `{key := "k1", file := "/a/b.clj"}`
with the identity path conversion. -/
theorem stackTrace_with_notification_single_frame_witness :
    ({ cljSession := true,
       debugResponse := some { key := "k1", file := "/a/b.clj" },
       debuggerLinesStartAt1 := true, debuggerColumnsStartAt1 := true } : State).debugResponse
        = some { key := "k1", file := "/a/b.clj" } ∧
    ∃ fr : StackFrame,
      CalvaDebugSession.stackTraceRequest id
          { cljSession := true,
            debugResponse := some { key := "k1", file := "/a/b.clj" },
            debuggerLinesStartAt1 := true, debuggerColumnsStartAt1 := true } =
        .ok ({ cljSession := true,
               debugResponse := some { key := "k1", file := "/a/b.clj" },
               debuggerLinesStartAt1 := true, debuggerColumnsStartAt1 := true },
             [Output.stackTraceResponse { stackFrames := [fr], totalFrames := 1 }]) ∧
      fr.id = 0 ∧ fr.source.path = id "/a/b.clj" :=
  ⟨rfl,
   stackTrace_with_notification_single_frame id
     { cljSession := true,
       debugResponse := some { key := "k1", file := "/a/b.clj" },
       debuggerLinesStartAt1 := true, debuggerColumnsStartAt1 := true }
     { key := "k1", file := "/a/b.clj" } rfl⟩

/-- C6: with a notification `n` current, the next handler succeeds with
an unchanged state (in particular the shared debug slot still holds `n`)
and a subsequent stackTrace request on that state responds with the
stack trace built from `n`. -/
theorem next_preserves_slot_for_stackTrace
    (conv : String → String) (st : State) (n : DebugNotification)
    (h : st.debugResponse = some n) :
    ∃ st' outs, CalvaDebugSession.nextRequest st = .ok (st', outs) ∧
      st'.debugResponse = some n ∧
      CalvaDebugSession.stackTraceRequest conv st' =
        .ok (st',
          [Output.stackTraceResponse
             { stackFrames :=
                 [{ id := 0, name := "test",
                    source := { name := basename n.file, path := conv n.file,
                                origin := "test-debug-data" },
                    line := 18, column := 0 }],
               totalFrames := 1 }]) := by
  refine ⟨st, ?_⟩
  cases hs : st.cljSession with
  | false =>
      exact ⟨[Output.response "next"],
        by simp [CalvaDebugSession.nextRequest, hs], h,
        by simp [CalvaDebugSession.stackTraceRequest, h]⟩
  | true =>
      exact ⟨[Output.debugInput ":next" n.key, Output.response "next"],
        by simp [CalvaDebugSession.nextRequest, hs, h], h,
        by simp [CalvaDebugSession.stackTraceRequest, h]⟩

/-- Witness for C6 at a concrete state holding the notification
`{key := "k1", file := "/a/b.clj"}`. -/
theorem next_preserves_slot_for_stackTrace_witness :
    ({ cljSession := true,
       debugResponse := some { key := "k1", file := "/a/b.clj" },
       debuggerLinesStartAt1 := false, debuggerColumnsStartAt1 := true } : State).debugResponse
        = some { key := "k1", file := "/a/b.clj" } ∧
    ∃ st' outs, CalvaDebugSession.nextRequest
        { cljSession := true,
          debugResponse := some { key := "k1", file := "/a/b.clj" },
          debuggerLinesStartAt1 := false, debuggerColumnsStartAt1 := true } =
          .ok (st', outs) ∧
      st'.debugResponse = some { key := "k1", file := "/a/b.clj" } ∧
      CalvaDebugSession.stackTraceRequest id st' =
        .ok (st',
          [Output.stackTraceResponse
             { stackFrames :=
                 [{ id := 0, name := "test",
                    source := { name := basename "/a/b.clj", path := id "/a/b.clj",
                                origin := "test-debug-data" },
                    line := 18, column := 0 }],
               totalFrames := 1 }]) :=
  ⟨rfl,
   next_preserves_slot_for_stackTrace id
     { cljSession := true,
       debugResponse := some { key := "k1", file := "/a/b.clj" },
       debuggerLinesStartAt1 := false, debuggerColumnsStartAt1 := true }
     { key := "k1", file := "/a/b.clj" } rfl⟩

/-- C7: in every session state the threads handler responds with exactly
one thread, id 1 and name "thread 1", and running the handler again on
the state it returns yields the identical result. -/
theorem threads_single_thread_idempotent (st : State) :
    (CalvaDebugSession.threadsRequest st).2 =
      [Output.threadsResponse { threads := [{ id := 1, name := "thread 1" }] }] ∧
    CalvaDebugSession.threadsRequest (CalvaDebugSession.threadsRequest st).1 =
      CalvaDebugSession.threadsRequest st :=
  ⟨rfl, rfl⟩

/-- C8 counterexample: the claim says the resolver returns the input
unchanged whenever any of `type`, `request`, `name` is present.  Here
`type` is present, holding the empty string, which JavaScript treats as
falsy: with an active clojure document the record is rewritten to the
default instead of being returned unchanged. -/
theorem resolve_present_empty_type_rewritten :
    resolveDebugConfiguration (some { document := { languageId := "clojure" } })
        { type := some "", request := none, name := none } ≠
      { type := some "", request := none, name := none } := by
  decide

/-- C8 amended: the resolver returns the input unchanged whenever any of
`type`, `request`, `name` is truthy (present and non-empty), and
whenever the active document (if any) is not a clojure document; only
when all three fields are falsy and the active document is a clojure
document does it return the fixed default configuration. -/
theorem resolveDebugConfiguration_amended
    (ed : Option TextEditor) (config : DebugConfiguration) :
    ((truthy config.type || truthy config.request || truthy config.name) = true →
       resolveDebugConfiguration ed config = config) ∧
    ((∀ e, ed = some e → e.document.languageId ≠ "clojure") →
       resolveDebugConfiguration ed config = config) ∧
    ((truthy config.type = false ∧ truthy config.request = false ∧
        truthy config.name = false) →
       ∀ e, ed = some e → e.document.languageId = "clojure" →
         resolveDebugConfiguration ed config = CALVA_DEBUG_CONFIGURATION) := by
  refine ⟨?_, ?_, ?_⟩
  · intro h
    unfold resolveDebugConfiguration
    cases h1 : truthy config.type <;> cases h2 : truthy config.request <;>
      cases h3 : truthy config.name <;> simp_all
  · intro h
    simp only [resolveDebugConfiguration]
    cases ed with
    | none => simp
    | some e =>
        have he : e.document.languageId ≠ "clojure" := h e rfl
        simp [he]
  · rintro ⟨ha, hb, hc⟩ e rfl hlang
    simp [resolveDebugConfiguration, ha, hb, hc, hlang]

/-- Witness for C8 amended at concrete inputs: a non-empty `type` is
left unchanged; with no active editor an empty record is left unchanged;
an empty record with an active clojure document becomes the default. -/
theorem resolveDebugConfiguration_amended_witness :
    resolveDebugConfiguration (some { document := { languageId := "clojure" } })
        { type := some "clojure", request := none, name := none } =
      { type := some "clojure", request := none, name := none } ∧
    resolveDebugConfiguration none
        { type := none, request := none, name := none } =
      { type := none, request := none, name := none } ∧
    resolveDebugConfiguration (some { document := { languageId := "clojure" } })
        { type := none, request := none, name := none } =
      CALVA_DEBUG_CONFIGURATION :=
  ⟨(resolveDebugConfiguration_amended
      (some { document := { languageId := "clojure" } })
      { type := some "clojure", request := none, name := none }).1 (by decide),
   (resolveDebugConfiguration_amended none
      { type := none, request := none, name := none }).2.1
     (fun e he => by cases he),
   (resolveDebugConfiguration_amended
      (some { document := { languageId := "clojure" } })
      { type := none, request := none, name := none }).2.2
     (by decide) { document := { languageId := "clojure" } } rfl rfl⟩

/-- C9: the factory creates its listener at most once — the first call
on a fresh instance creates it on the OS-assigned port and every later
call returns a descriptor for that same port without touching the state
— and disposal yields no error, neither on a fresh instance with no
listener nor when invoked twice from any state. -/
theorem factory_single_listener_safe_dispose (p q : Nat) (st : FactoryState) :
    (createDebugAdapterDescriptor { server := none } p).1.server =
      some { port := p, listening := true } ∧
    (createDebugAdapterDescriptor { server := none } p).2.port = p ∧
    (createDebugAdapterDescriptor
      (createDebugAdapterDescriptor { server := none } p).1 q).2.port = p ∧
    (createDebugAdapterDescriptor
      (createDebugAdapterDescriptor { server := none } p).1 q).1 =
      (createDebugAdapterDescriptor { server := none } p).1 ∧
    dispose { server := none } = .ok { server := none } ∧
    ∃ st1 st2, dispose st = .ok st1 ∧ dispose st1 = .ok st2 := by
  refine ⟨rfl, rfl, rfl, rfl, rfl, ?_⟩
  cases h : st.server with
  | none =>
      exact ⟨st, st, by simp [dispose, h], by simp [dispose, h]⟩
  | some server =>
      exact ⟨{ server := some server.close }, { server := some server.close.close },
        by simp [dispose, h], by simp [dispose]⟩

/-- C10: the single frame returned for a current notification carries
the fixed placeholder values — id 0, name "test", line 18, column 0 —
regardless of the notification, and any other notification with the
same file (in particular one with different line/column coordinates)
produces the identical stackTrace result. -/
theorem stackTrace_frame_placeholder_values
    (conv : String → String) (st : State) (n : DebugNotification)
    (h : st.debugResponse = some n) :
    (∃ fr body,
      CalvaDebugSession.stackTraceRequest conv st =
        .ok (st, [Output.stackTraceResponse body]) ∧
      body.stackFrames = [fr] ∧
      fr.id = 0 ∧ fr.name = "test" ∧ fr.line = 18 ∧ fr.column = 0) ∧
    ∀ m : DebugNotification, m.file = n.file →
      (CalvaDebugSession.stackTraceRequest conv
          { st with debugResponse := some m }).map Prod.snd =
        (CalvaDebugSession.stackTraceRequest conv st).map Prod.snd := by
  constructor
  · refine ⟨{ id := 0, name := "test",
              source := { name := basename n.file, path := conv n.file,
                          origin := "test-debug-data" },
              line := 18, column := 0 },
            { stackFrames :=
                [{ id := 0, name := "test",
                   source := { name := basename n.file, path := conv n.file,
                               origin := "test-debug-data" },
                   line := 18, column := 0 }],
              totalFrames := 1 }, ?_, rfl, rfl, rfl, rfl, rfl⟩
    simp [CalvaDebugSession.stackTraceRequest, h]
  · intro m hm
    simp [CalvaDebugSession.stackTraceRequest, h, hm, Except.map]

/-- Witness for C10 at a notification carrying the coordinate
line 99, column 42, which the frame does not reflect. -/
theorem stackTrace_frame_placeholder_values_witness :
    ({ cljSession := true,
       debugResponse := some
         { key := "k1", file := "/a/b.clj", line? := some 99, column? := some 42 },
       debuggerLinesStartAt1 := true, debuggerColumnsStartAt1 := true } : State).debugResponse
        = some { key := "k1", file := "/a/b.clj", line? := some 99, column? := some 42 } ∧
    ∃ fr body,
      CalvaDebugSession.stackTraceRequest id
          { cljSession := true,
            debugResponse := some
              { key := "k1", file := "/a/b.clj", line? := some 99, column? := some 42 },
            debuggerLinesStartAt1 := true, debuggerColumnsStartAt1 := true } =
        .ok ({ cljSession := true,
               debugResponse := some
                 { key := "k1", file := "/a/b.clj", line? := some 99, column? := some 42 },
               debuggerLinesStartAt1 := true, debuggerColumnsStartAt1 := true },
             [Output.stackTraceResponse body]) ∧
      body.stackFrames = [fr] ∧
      fr.id = 0 ∧ fr.name = "test" ∧ fr.line = 18 ∧ fr.column = 0 :=
  ⟨rfl,
   (stackTrace_frame_placeholder_values id
     { cljSession := true,
       debugResponse := some
         { key := "k1", file := "/a/b.clj", line? := some 99, column? := some 42 },
       debuggerLinesStartAt1 := true, debuggerColumnsStartAt1 := true }
     { key := "k1", file := "/a/b.clj", line? := some 99, column? := some 42 } rfl).1⟩

end CalvaDebug
